import Mathlib

/-!
# VBX3 FPGA source switch (drivers/media/i2c/vbx3_fpga.c)

A shallow embedding of the i2c driver of the Vodalys VBX3 FPGA A/V source
switch: the register map, the status decode of `vbx3_fpga_log_status`, the link
lookup `find_link_by_sinkpad_index`, the media-controller callback
`vbx3_fpga_link_setup` and the register part of `vbx3_fpga_probe`.

Conventions of the embedding.
* C `unsigned int` and `u32` values are natural numbers; the only arithmetic
  the driver does on them is `&`, `|` and `>>`, none of which can overflow.
* A function that reaches state through pointers takes that state as an
  argument and returns the state it leaves behind.
* An uninitialised local (`unsigned int value;`, `int version, status;`) is an
  extra argument carrying whatever the stack slot happens to hold.
* An array access outside the bounds of the array (undefined behaviour in C)
  makes the embedded function return `none`.
-/

namespace Vbx3Fpga

/-! ## Register map and pad numbering -/

def VBX3_FPGA_REG_VERSION : Nat := 0x00
def VBX3_FPGA_REG_CTRL_CHAN0 : Nat := 0x01
def VBX3_FPGA_REG_CTRL_CHAN1 : Nat := 0x02
def VBX3_FPGA_REG_CTRL_PATTERN_CHAN0 : Nat := 0x03
def VBX3_FPGA_REG_GLOBAL_STATUS : Nat := 0x04
def VBX3_FPGA_REG_STATUS_SDI0 : Nat := 0x05
def VBX3_FPGA_REG_STATUS_SDI1 : Nat := 0x06
def VBX3_FPGA_REG_EVENT_CHAN0 : Nat := 0x07
def VBX3_FPGA_REG_EVENT_CHAN1 : Nat := 0x08

/-- First enumerator of `enum vbx3_fpga_input_pads`. -/
def VBX3_FPGA_INPUT_SDI0 : Nat := 0
def VBX3_FPGA_INPUT_ADV7611_HDMI : Nat := 1
def VBX3_FPGA_INPUT_SDI1 : Nat := 2
def VBX3_FPGA_INPUT_ADV7604_HDMI : Nat := 3
/-- First enumerator of `enum vbx3_fpga_output_pads`. -/
def VBX3_FPGA_OUTPUT_CHANNEL0 : Nat := 4
def VBX3_FPGA_OUTPUT_CHANNEL1 : Nat := 5

def VBX3_FPGA_PADS_INPUT_NUM : Nat := 4
def VBX3_FPGA_PADS_OUTPUT_NUM : Nat := 2
def VBX3_FPGA_PADS_NUM : Nat := VBX3_FPGA_PADS_INPUT_NUM + VBX3_FPGA_PADS_OUTPUT_NUM

/-! ## Kernel constants used by the driver

The headers that define them are not part of the driver file; the values are
those of the Linux ABI. -/

/-- Modelled from the spec: the error code of a probe on an adapter without
byte-data transfers; `EIO` of errno-base.h, a header outside the driver file. -/
def EIO : Int := 5
/-- Modelled from the spec: the error code of a failed allocation; `ENOMEM` of
errno-base.h, a header outside the driver file. -/
def ENOMEM : Int := 12
/-- Modelled from the spec: the error code of `InvalidPad` and of
`ConflictingLinkActive` (section 7); `EINVAL` of errno-base.h, a header outside
the driver file. -/
def EINVAL : Int := 22
/-- Modelled from the spec: the error code of `NotReady` (section 7);
`EPROBE_DEFER` of linux/errno.h, a header outside the driver file. -/
def EPROBE_DEFER : Int := 517

/-- Modelled from the spec: the `enabled` state of a Link (section 3) is bit 0 of
its flags; `MEDIA_LNK_FL_ENABLED` of uapi/linux/media.h, a header outside the
driver file. -/
def MEDIA_LNK_FL_ENABLED : Nat := 1
/-- Modelled from the spec: link flag bit 1, `MEDIA_LNK_FL_IMMUTABLE` of
uapi/linux/media.h, a header outside the driver file. -/
def MEDIA_LNK_FL_IMMUTABLE : Nat := 2
/-- Modelled from the spec: link flag bit 2, `MEDIA_LNK_FL_DYNAMIC` of
uapi/linux/media.h, a header outside the driver file: the link may be enabled
and disabled while streaming. -/
def MEDIA_LNK_FL_DYNAMIC : Nat := 4

/-! ## The register bus (regmap over i2c) -/

/-- One transaction put on the bus: a register read, or a register write with
the value handed to `regmap_write`. -/
inductive BusOp where
  | read (reg : Nat)
  | write (reg : Nat) (val : Nat)
  deriving DecidableEq, Repr

/-- Modelled from the spec: the Register Bus of section 4.1 (the regmap
implementation is not part of the driver file). A byte-addressed register file
(`reg_bits = 8`, `val_bits = 8`, `REGCACHE_NONE` in `vbx3_fpga_regmap`), every
operation of which may fail: `faults` schedules the outcome of the coming
transactions, `0` for a transaction that goes through and an errno for one that
fails, an exhausted schedule meaning no more failures; `log` records every
transaction issued so far, oldest first. -/
structure Regmap where
  regs : Nat → Nat
  faults : List Int
  log : List BusOp

/-- Modelled from the spec: `read(address) -> Result<byte, BusError>` of section
4.1, with the calling convention of `regmap_read(map, reg, &val)`: the first
component is the return code, the second the content of `val` afterwards, which
is the register byte on success and is left as it was on failure. -/
def regmap_read (map : Regmap) (reg : Nat) (val : Nat) : Int × Nat × Regmap :=
  let err := map.faults.headD 0
  let map1 : Regmap :=
    { regs := map.regs, faults := map.faults.tail, log := map.log ++ [BusOp.read reg] }
  if err = 0 then (0, map.regs reg % 256, map1) else (err, val, map1)

/-- Modelled from the spec: `write(address, value) -> Result<(), BusError>` of
section 4.1, with the calling convention of `regmap_write(map, reg, val)`: on
success the register holds the low byte of `val` (`val_bits = 8`); a failed
write is taken to leave the register file as it was. -/
def regmap_write (map : Regmap) (reg : Nat) (val : Nat) : Int × Regmap :=
  let err := map.faults.headD 0
  if err = 0 then
    (0, { regs := fun r => if r = reg then val % 256 else map.regs r,
          faults := map.faults.tail,
          log := map.log ++ [BusOp.write reg val] })
  else
    (err, { regs := map.regs, faults := map.faults.tail,
            log := map.log ++ [BusOp.write reg val] })

/-- A working bus: no failure is scheduled. -/
def Regmap.reliable (map : Regmap) : Prop := ∀ e ∈ map.faults, e = 0

instance (map : Regmap) : Decidable map.reliable :=
  inferInstanceAs (Decidable (∀ e ∈ map.faults, e = 0))

/-! ## Media-controller data reachable from the driver -/

/-- Modelled from the spec: the Pad of section 3; `struct media_pad` is declared
in a header outside the driver file. The fields the driver reads: the id of the
entity that owns the pad and the index of the pad within it. -/
structure MediaPad where
  entity : Nat
  index : Nat
  deriving DecidableEq, Repr

/-- Modelled from the spec: the Link of section 3; `struct media_link` is
declared in a header outside the driver file. The fields the driver reads: the
two pads and the flags word, bit 0 of which is `enabled`. -/
structure MediaLink where
  source : MediaPad
  sink : MediaPad
  flags : Nat
  deriving DecidableEq, Repr

/-- Modelled from the spec: the Routing Model of section 4.2, the list of
existing links; `struct media_entity` is declared in a header outside the
driver file. The fields the driver reads: the id and the array of links,
`num_links` being the length of `links`. -/
structure MediaEntity where
  id : Nat
  links : List MediaLink
  deriving DecidableEq, Repr

/-- The part of `struct vbx3_fpga_state` the callbacks reach: the media entity
embedded in the sub-device (`sd.entity`) and the register map. -/
structure vbx3_fpga_state where
  entity : MediaEntity
  regmap : Regmap

/-! ## Status decode (`vbx3_fpga_log_status`) -/

def sdi_format : List String := ["SD", "HD-SDI", "3G-SDI"]
def sdi_video : List String := ["720x576", "1280x720", "1920x1035", "1920x1080"]
def sdi_fps : List String := ["undefined", "24p", "25p", "30p", "50i", "60i", "50p", "60p"]
def chan_audio : List String := ["HDMI", "SDI", "sgtl5000", "sgtl5000"]
def chan_video : List String := ["HDMI", "SDI"]

/-- Index into `sdi_format`: `(value & 0x60) >> 5`. -/
def sdi_format_index (value : Nat) : Nat := (value &&& 0x60) >>> 5
/-- Index into `sdi_video`: `(value & 0x18) >> 3`. -/
def sdi_video_index (value : Nat) : Nat := (value &&& 0x18) >>> 3
/-- Index into `sdi_fps`: `value & 0x07`. -/
def sdi_fps_index (value : Nat) : Nat := value &&& 0x07

/-- The three table accesses of the "SDI n format %s: %s@%s" line; `none` when
one of them falls outside its table. -/
def decode_lock_format (value : Nat) : Option (String × String × String) :=
  match sdi_format[sdi_format_index value]?, sdi_video[sdi_video_index value]?,
    sdi_fps[sdi_fps_index value]? with
  | some f, some v, some r => some (f, v, r)
  | _, _, _ => none

/-- The two table accesses of the "Channel n : Audio %s, Video %s" line. -/
def decode_channel_sources (value : Nat) : Option (String × String) :=
  match chan_audio[(value &&& 0x06) >>> 1]?, chan_video[value &&& 0x01]? with
  | some a, some v => some (a, v)
  | _, _ => none

/-- What `vbx3_fpga_log_status` prints, field by field. -/
structure StatusSnapshot where
  fpga_version : Nat
  hdmi0_connected : Bool
  hdmi1_connected : Bool
  sdi0_locked : Bool
  sdi0_format : Option (String × String × String)
  sdi1_locked : Bool
  sdi1_format : Option (String × String × String)
  channel0 : String × String
  channel1 : String × String
  deriving DecidableEq, Repr

/-- The "SDI n locked" line and, only when bit 7 is set, the format line.
`none` when the format line indexes a table out of range. -/
def log_sdi (value : Nat) : Option (Bool × Option (String × String × String)) :=
  if value &&& 0x80 ≠ 0 then
    match decode_lock_format value with
    | some t => some (true, some t)
    | none => none
  else some (false, none)

/-- The body of `vbx3_fpga_log_status`: six register reads, the return code of
each ignored, each followed by the decode of `value`. The result is the return
code, the lines printed and the bus afterwards; `none` when a table is indexed
out of range. -/
def vbx3_fpga_log_status (map : Regmap) (value : Nat) : Option (Int × StatusSnapshot × Regmap) :=
  let (_, version, map) := regmap_read map VBX3_FPGA_REG_VERSION value
  let (_, gstatus, map) := regmap_read map VBX3_FPGA_REG_GLOBAL_STATUS version
  let (_, sdi0, map) := regmap_read map VBX3_FPGA_REG_STATUS_SDI0 gstatus
  match log_sdi sdi0 with
  | none => none
  | some (locked0, format0) =>
    let (_, sdi1, map) := regmap_read map VBX3_FPGA_REG_STATUS_SDI1 sdi0
    match log_sdi sdi1 with
    | none => none
    | some (locked1, format1) =>
      let (_, ctrl0, map) := regmap_read map VBX3_FPGA_REG_CTRL_CHAN0 sdi1
      match decode_channel_sources ctrl0 with
      | none => none
      | some chan0 =>
        let (_, ctrl1, map) := regmap_read map VBX3_FPGA_REG_CTRL_CHAN1 ctrl0
        match decode_channel_sources ctrl1 with
        | none => none
        | some chan1 =>
          some (0,
            { fpga_version := version,
              hdmi0_connected := decide (gstatus &&& 0x80 ≠ 0),
              hdmi1_connected := decide (gstatus &&& 0x40 ≠ 0),
              sdi0_locked := locked0, sdi0_format := format0,
              sdi1_locked := locked1, sdi1_format := format1,
              channel0 := chan0, channel1 := chan1 },
            map)

/-! ## Link lookup and link setup -/

/-- The loop of `find_link_by_sinkpad_index` over the links not yet visited: it
stops at the first link whose sink pad belongs to the entity `id` and has the
index `index`. -/
def find_link_loop (id : Nat) (index : Nat) : List MediaLink → Option MediaLink
  | [] => none
  | link :: rest =>
    if link.sink.entity = id ∧ link.sink.index = index then some link
    else find_link_loop id index rest

/-- Return a link of an entity where the sink corresponds to the same entity
and the index is `index`; `none` is the C `NULL`. -/
def find_link_by_sinkpad_index (entity : MediaEntity) (index : Nat) : Option MediaLink :=
  find_link_loop entity.id index entity.links

/-- The test `link && link->flags == MEDIA_LNK_FL_ENABLED` guarding each of the
four input branches of `vbx3_fpga_link_setup`. -/
def link_is_activated (link : Option MediaLink) : Bool :=
  match link with
  | some l => decide (l.flags = MEDIA_LNK_FL_ENABLED)
  | none => false

/-- Setup VBX3_FPGA connections: returns `-EINVAL` or zero on success, together
with the state left behind. `value` is the initial content of the uninitialised
local of that name. The return codes of `regmap_read` and `regmap_write` are
dropped, as in the source, and nothing is ever stored through `entity`. -/
def vbx3_fpga_link_setup (state : vbx3_fpga_state) (local_ : MediaPad) (_remote : MediaPad)
    (flags : Nat) (value : Nat) : Int × vbx3_fpga_state :=
  if flags = 0 then (0, state)
  else if local_.index = VBX3_FPGA_INPUT_ADV7611_HDMI then
    let link := find_link_by_sinkpad_index state.entity VBX3_FPGA_INPUT_SDI0
    if link_is_activated link then (-EINVAL, state)
    else
      let (_, value, map) := regmap_read state.regmap VBX3_FPGA_REG_CTRL_CHAN0 value
      let (_, map) := regmap_write map VBX3_FPGA_REG_CTRL_CHAN0 (value &&& 0xfe)
      (0, { entity := state.entity, regmap := map })
  else if local_.index = VBX3_FPGA_INPUT_SDI0 then
    let link := find_link_by_sinkpad_index state.entity VBX3_FPGA_INPUT_ADV7611_HDMI
    if link_is_activated link then (-EINVAL, state)
    else
      let (_, value, map) := regmap_read state.regmap VBX3_FPGA_REG_CTRL_CHAN0 value
      let (_, map) := regmap_write map VBX3_FPGA_REG_CTRL_CHAN0 (value ||| 0x01)
      (0, { entity := state.entity, regmap := map })
  else if local_.index = VBX3_FPGA_INPUT_SDI1 then
    let link := find_link_by_sinkpad_index state.entity VBX3_FPGA_INPUT_ADV7604_HDMI
    if link_is_activated link then (-EINVAL, state)
    else
      let (_, value, map) := regmap_read state.regmap VBX3_FPGA_REG_CTRL_CHAN1 value
      let (_, map) := regmap_write map VBX3_FPGA_REG_CTRL_CHAN1 (value ||| 0x01)
      (0, { entity := state.entity, regmap := map })
  else if local_.index = VBX3_FPGA_INPUT_ADV7604_HDMI then
    let link := find_link_by_sinkpad_index state.entity VBX3_FPGA_INPUT_SDI1
    if link_is_activated link then (-EINVAL, state)
    else
      let (_, value, map) := regmap_read state.regmap VBX3_FPGA_REG_CTRL_CHAN1 value
      let (_, map) := regmap_write map VBX3_FPGA_REG_CTRL_CHAN1 (value &&& 0xfe)
      (0, { entity := state.entity, regmap := map })
  else if local_.index = VBX3_FPGA_OUTPUT_CHANNEL0 ∨ local_.index = VBX3_FPGA_OUTPUT_CHANNEL1 then
    (0, state)
  else (-EINVAL, state)

/-! ## Probe: the register part of `vbx3_fpga_probe` -/

/-- The 32 bits of an `unsigned int` read back as a C `int`. -/
def to_int (u : Nat) : Int :=
  if u % 2 ^ 32 < 2 ^ 31 then ((u % 2 ^ 32 : Nat) : Int) else ((u % 2 ^ 32 : Nat) : Int) - 2 ^ 32

/-- What `vbx3_fpga_probe` gets from the kernel around it: the outcomes of
`i2c_check_functionality`, `devm_kzalloc` and `devm_regmap_init_i2c`, the
initial contents of the uninitialised locals `version` and `status`, and the
return codes of `media_entity_init` and `v4l2_async_register_subdev`. -/
structure ProbeEnv where
  i2c_functionality : Bool
  kzalloc_ok : Bool
  regmap_is_err : Bool
  version : Nat
  status : Nat
  media_entity_init_ret : Int
  async_register_ret : Int

/-- The control flow of `vbx3_fpga_probe` with its bus traffic: the return code
and the bus afterwards. `map` is the bus behind the regmap that
`devm_regmap_init_i2c` hands out. -/
def vbx3_fpga_probe (env : ProbeEnv) (map : Regmap) : Int × Regmap :=
  if env.i2c_functionality = false then (- EIO, map)
  else if env.kzalloc_ok = false then (-ENOMEM, map)
  else if env.regmap_is_err = true then (-EINVAL, map)
  else
    let (_, version, map) := regmap_read map VBX3_FPGA_REG_VERSION env.version
    if to_int version < 0 then (-EPROBE_DEFER, map)
    else
      let (_, map) := regmap_write map VBX3_FPGA_REG_CTRL_CHAN0 0x00
      let (_, map) := regmap_write map VBX3_FPGA_REG_CTRL_CHAN1 0x00
      let (_, _status, map) := regmap_read map VBX3_FPGA_REG_GLOBAL_STATUS env.status
      (env.async_register_ret, map)

/-! ## The pairing table of the specification (section 4.2)

These definitions follow the words of the specification; the theorems compare
them with what `vbx3_fpga_link_setup` does. -/

/-- The must-be-disabled alternate of a sink pad: 0 and 1 are paired, 2 and 3
are paired. -/
def alternate (p : Nat) : Nat :=
  if p = 0 then 1 else if p = 1 then 0 else if p = 2 then 3 else 2

/-- The control register of a sink pad: channel 0 control (0x01) for pads 0 and
1, channel 1 control (0x02) for pads 2 and 3. -/
def ctrl_reg (p : Nat) : Nat := if p < 2 then 0x01 else 0x02

/-- The value of bit 0 after the bit action of a sink pad: set (1) for the
pads 0 and 2, cleared (0) for the pads 1 and 3. -/
def bit0_after (p : Nat) : Nat := if p = 0 ∨ p = 2 then 1 else 0

/-- The byte with the bit action of pad `p` applied: bits 7..1 of `byte` kept,
bit 0 replaced. -/
def bit_action (p : Nat) (byte : Nat) : Nat := 2 * (byte / 2) + bit0_after p

/-- The value each input branch of `vbx3_fpga_link_setup` hands to
`regmap_write`: `value | 0x01` in the branches of the pads 0 and 2,
`value & 0xfe` in the branches of the pads 1 and 3. -/
def written_value (p : Nat) (value : Nat) : Nat :=
  if p = 0 ∨ p = 2 then value ||| 0x01 else value &&& 0xfe

/-- The bus after the read-modify-write of an input branch of
`vbx3_fpga_link_setup`: `regmap_read` of `reg` into `value`, then `regmap_write`
to `reg` of the value the branch of pad `p` computes. -/
def read_modify_write (map : Regmap) (reg : Nat) (p : Nat) (value : Nat) : Regmap :=
  (regmap_write (regmap_read map reg value).2.2 reg
    (written_value p (regmap_read map reg value).2.1)).2

/-- A link of the entity arrives at its sink pad `index`. -/
def link_at (entity : MediaEntity) (index : Nat) (l : MediaLink) : Prop :=
  l.sink.entity = entity.id ∧ l.sink.index = index

instance (entity : MediaEntity) (index : Nat) (l : MediaLink) :
    Decidable (link_at entity index l) :=
  inferInstanceAs (Decidable (l.sink.entity = entity.id ∧ l.sink.index = index))

/-- The link has the ENABLED flag bit set, whatever its other flag bits. -/
def link_enabled (l : MediaLink) : Prop := l.flags &&& MEDIA_LNK_FL_ENABLED ≠ 0

instance (l : MediaLink) : Decidable (link_enabled l) :=
  inferInstanceAs (Decidable (l.flags &&& MEDIA_LNK_FL_ENABLED ≠ 0))

/-- Some link of the entity arrives at sink pad `index` and is enabled. -/
def enabled_link_on (entity : MediaEntity) (index : Nat) : Prop :=
  ∃ l ∈ entity.links, link_at entity index l ∧ link_enabled l

instance (entity : MediaEntity) (index : Nat) : Decidable (enabled_link_on entity index) :=
  inferInstanceAs (Decidable (∃ l ∈ entity.links, link_at entity index l ∧ link_enabled l))

/-- The flags of the first link of the entity arriving at sink pad `index`, as
the routing model reports them; `none` when there is no such link. -/
def link_flags (entity : MediaEntity) (index : Nat) : Option Nat :=
  (find_link_by_sinkpad_index entity index).map MediaLink.flags

/-! ## Concrete inputs used by the examples below -/

/-- A bus with every register at zero and no failure scheduled. -/
def bus_zero : Regmap := { regs := fun _ => 0, faults := [], log := [] }

/-- A bus whose SDI0 status register reads 0xE0: locked, format bits 11. -/
def bus_sdi0_e0 : Regmap :=
  { regs := fun r => if r = 0x05 then 0xE0 else 0, faults := [], log := [] }

/-- A link from pad 0 of the entity `src` to sink pad `index` of entity 1. -/
def link_to (src : Nat) (index : Nat) (flags : Nat) : MediaLink :=
  { source := { entity := src, index := 0 }, sink := { entity := 1, index := index },
    flags := flags }

/-- The switch (entity 1) with one link per sink pad, all disabled. -/
def entity_idle : MediaEntity :=
  { id := 1, links := [link_to 10 0 0, link_to 11 1 0, link_to 12 2 0, link_to 13 3 0] }

/-- The switch with the link into pad 1 enabled and immutable (flags 3). -/
def entity_alt_immutable : MediaEntity :=
  { id := 1,
    links := [link_to 10 0 0, link_to 11 1 (MEDIA_LNK_FL_ENABLED ||| MEDIA_LNK_FL_IMMUTABLE)] }

/-- The switch with two links into pad 1: the first disabled, the second
enabled (flags 1). -/
def entity_alt_second : MediaEntity :=
  { id := 1, links := [link_to 10 0 0, link_to 11 1 0, link_to 14 1 1] }

/-- The switch with the link into pad 1 enabled (flags 1). -/
def entity_alt_enabled : MediaEntity :=
  { id := 1, links := [link_to 10 0 0, link_to 11 1 1] }

/-- The switch with one link into each of the pads 0 and 1, the link into pad 1
dynamic and disabled (flags 4). -/
def entity_dynamic_idle : MediaEntity :=
  { id := 1, links := [link_to 10 0 0, link_to 11 1 MEDIA_LNK_FL_DYNAMIC] }

/-- The same switch once the dynamic link into pad 1 has been enabled: its
flags are ENABLED together with DYNAMIC (5). -/
def entity_alt_dynamic : MediaEntity :=
  { id := 1,
    links := [link_to 10 0 0, link_to 11 1 (MEDIA_LNK_FL_ENABLED ||| MEDIA_LNK_FL_DYNAMIC)] }

/-- Sink or source pad `index` of the switch (entity 1). -/
def pad (index : Nat) : MediaPad := { entity := 1, index := index }

/-- A probe environment in which every kernel service succeeds. -/
def env_ok : ProbeEnv :=
  { i2c_functionality := true, kzalloc_ok := true, regmap_is_err := false,
    version := 0, status := 0, media_entity_init_ret := 0, async_register_ret := 0 }

/-! ## Auxiliary facts -/

theorem byte_or_one (v : Nat) (h : v < 256) : v ||| 0x01 = 2 * (v / 2) + 1 := by
  interval_cases v <;> rfl

theorem byte_and_fe (v : Nat) (h : v < 256) : v &&& 0xfe = 2 * (v / 2) := by
  interval_cases v <;> rfl

theorem written_value_byte (p : Nat) (v : Nat) (h : v < 256) :
    written_value p v = bit_action p v := by
  unfold written_value bit_action bit0_after
  by_cases hp : p = 0 ∨ p = 2
  · simp only [hp, if_true]; exact byte_or_one v h
  · simp only [hp, if_false]; exact byte_and_fe v h

theorem bit_action_lt (p : Nat) (v : Nat) (h : v < 256) : bit_action p v < 256 := by
  unfold bit_action bit0_after
  split <;> omega

theorem bit_action_idem (p : Nat) (v : Nat) : bit_action p (bit_action p v) = bit_action p v := by
  unfold bit_action bit0_after
  split <;> omega

theorem find_link_loop_some (id index : Nat) (links : List MediaLink) (l : MediaLink)
    (h : find_link_loop id index links = some l) :
    l ∈ links ∧ l.sink.entity = id ∧ l.sink.index = index := by
  induction links with
  | nil => simp [find_link_loop] at h
  | cons x rest ih =>
    unfold find_link_loop at h
    by_cases hx : x.sink.entity = id ∧ x.sink.index = index
    · rw [if_pos hx] at h
      cases h
      exact ⟨List.mem_cons_self _ _, hx⟩
    · rw [if_neg hx] at h
      exact ⟨List.mem_cons_of_mem _ (ih h).1, (ih h).2⟩

theorem find_link_loop_first (id index : Nat) (pre post : List MediaLink) (l : MediaLink)
    (hpre : ∀ x ∈ pre, ¬ (x.sink.entity = id ∧ x.sink.index = index))
    (hl : l.sink.entity = id ∧ l.sink.index = index) :
    find_link_loop id index (pre ++ l :: post) = some l := by
  induction pre with
  | nil => simp [find_link_loop, hl]
  | cons x rest ih =>
    have hx : ¬ (x.sink.entity = id ∧ x.sink.index = index) := hpre x (List.mem_cons_self _ _)
    have hrest : ∀ y ∈ rest, ¬ (y.sink.entity = id ∧ y.sink.index = index) :=
      fun y hy => hpre y (List.mem_cons_of_mem _ hy)
    show find_link_loop id index (x :: (rest ++ l :: post)) = some l
    unfold find_link_loop
    rw [if_neg hx]
    exact ih hrest

theorem enabled_flag_clear_ne (f : Nat) (h : f &&& MEDIA_LNK_FL_ENABLED = 0) :
    f ≠ MEDIA_LNK_FL_ENABLED := by
  intro hf
  rw [hf] at h
  exact absurd h (by decide)

theorem not_activated_of_free (entity : MediaEntity) (index : Nat)
    (hfree : ¬ enabled_link_on entity index) :
    link_is_activated (find_link_by_sinkpad_index entity index) = false := by
  cases hfind : find_link_by_sinkpad_index entity index with
  | none => rfl
  | some l =>
    have hl := find_link_loop_some entity.id index entity.links l hfind
    have hflag : l.flags &&& MEDIA_LNK_FL_ENABLED = 0 := by
      by_contra hne
      exact hfree ⟨l, hl.1, hl.2, hne⟩
    simp [link_is_activated, enabled_flag_clear_ne l.flags hflag]

theorem link_setup_sink_free (state : vbx3_fpga_state) (local_ remote : MediaPad)
    (flags value : Nat) (hp : local_.index < 4) (hflags : flags ≠ 0)
    (hchk : link_is_activated
      (find_link_by_sinkpad_index state.entity (alternate local_.index)) = false) :
    vbx3_fpga_link_setup state local_ remote flags value =
      (0, { entity := state.entity,
            regmap := (regmap_write
              (regmap_read state.regmap (ctrl_reg local_.index) value).2.2
              (ctrl_reg local_.index)
              (written_value local_.index
                (regmap_read state.regmap (ctrl_reg local_.index) value).2.1)).2 }) := by
  obtain ⟨e, p⟩ := local_
  simp only at hp hchk ⊢
  interval_cases p <;>
    simp_all [vbx3_fpga_link_setup, alternate, ctrl_reg, written_value,
      VBX3_FPGA_INPUT_SDI0, VBX3_FPGA_INPUT_ADV7611_HDMI, VBX3_FPGA_INPUT_SDI1,
      VBX3_FPGA_INPUT_ADV7604_HDMI, VBX3_FPGA_REG_CTRL_CHAN0, VBX3_FPGA_REG_CTRL_CHAN1]

theorem link_setup_sink_conflict (state : vbx3_fpga_state) (local_ remote : MediaPad)
    (flags value : Nat) (hp : local_.index < 4) (hflags : flags ≠ 0)
    (hchk : link_is_activated
      (find_link_by_sinkpad_index state.entity (alternate local_.index)) = true) :
    vbx3_fpga_link_setup state local_ remote flags value = (-EINVAL, state) := by
  obtain ⟨e, p⟩ := local_
  simp only at hp hchk ⊢
  interval_cases p <;>
    simp_all [vbx3_fpga_link_setup, alternate,
      VBX3_FPGA_INPUT_SDI0, VBX3_FPGA_INPUT_ADV7611_HDMI, VBX3_FPGA_INPUT_SDI1,
      VBX3_FPGA_INPUT_ADV7604_HDMI]

theorem link_setup_sink_rmw (state : vbx3_fpga_state) (local_ remote : MediaPad)
    (flags value : Nat) (hp : local_.index < 4) (hflags : flags ≠ 0)
    (hfree : ¬ enabled_link_on state.entity (alternate local_.index)) :
    vbx3_fpga_link_setup state local_ remote flags value =
      (0, { entity := state.entity,
            regmap := read_modify_write state.regmap (ctrl_reg local_.index)
              local_.index value }) :=
  link_setup_sink_free state local_ remote flags value hp hflags
    (not_activated_of_free state.entity (alternate local_.index) hfree)

theorem reliable_head (map : Regmap) (h : map.reliable) : map.faults.headD 0 = 0 := by
  unfold Regmap.reliable at h
  cases hf : map.faults with
  | nil => rfl
  | cons e rest =>
    rw [hf] at h
    exact h e (List.mem_cons_self _ _)

theorem reliable_tail_head (map : Regmap) (h : map.reliable) :
    map.faults.tail.headD 0 = 0 := by
  unfold Regmap.reliable at h
  cases hf : map.faults with
  | nil => rfl
  | cons e rest =>
    rw [hf] at h
    cases rest with
    | nil => rfl
    | cons e2 rest2 => exact h e2 (by simp)

theorem regmap_read_regs (map : Regmap) (reg value : Nat) :
    (regmap_read map reg value).2.2.regs = map.regs := by
  unfold regmap_read
  dsimp only
  split <;> rfl

theorem regmap_read_faults (map : Regmap) (reg value : Nat) :
    (regmap_read map reg value).2.2.faults = map.faults.tail := by
  unfold regmap_read
  dsimp only
  split <;> rfl

theorem regmap_read_log (map : Regmap) (reg value : Nat) :
    (regmap_read map reg value).2.2.log = map.log ++ [BusOp.read reg] := by
  unfold regmap_read
  dsimp only
  split <;> rfl

theorem regmap_read_ok (map : Regmap) (reg value : Nat) (h : map.faults.headD 0 = 0) :
    (regmap_read map reg value).1 = 0 ∧
      (regmap_read map reg value).2.1 = map.regs reg % 256 := by
  unfold regmap_read
  dsimp only
  rw [if_pos h]
  exact ⟨rfl, rfl⟩

theorem regmap_write_faults (map : Regmap) (reg val : Nat) :
    (regmap_write map reg val).2.faults = map.faults.tail := by
  unfold regmap_write
  dsimp only
  split <;> rfl

theorem regmap_write_log (map : Regmap) (reg val : Nat) :
    (regmap_write map reg val).2.log = map.log ++ [BusOp.write reg val] := by
  unfold regmap_write
  dsimp only
  split <;> rfl

theorem regmap_write_regs_other (map : Regmap) (reg val r : Nat) (hr : r ≠ reg) :
    (regmap_write map reg val).2.regs r = map.regs r := by
  unfold regmap_write
  dsimp only
  split
  · exact if_neg hr
  · rfl

theorem regmap_write_ok (map : Regmap) (reg val : Nat) (h : map.faults.headD 0 = 0) :
    (regmap_write map reg val).1 = 0 ∧ (regmap_write map reg val).2.regs reg = val % 256 := by
  unfold regmap_write
  dsimp only
  rw [if_pos h]
  exact ⟨rfl, if_pos rfl⟩

theorem rmw_log (map : Regmap) (reg p value : Nat) :
    (read_modify_write map reg p value).log =
      map.log ++ [BusOp.read reg,
        BusOp.write reg (written_value p (regmap_read map reg value).2.1)] := by
  unfold read_modify_write
  rw [regmap_write_log, regmap_read_log, List.append_assoc]
  rfl

theorem rmw_regs_other (map : Regmap) (reg p value r : Nat) (hr : r ≠ reg) :
    (read_modify_write map reg p value).regs r = map.regs r := by
  unfold read_modify_write
  rw [regmap_write_regs_other _ _ _ _ hr, regmap_read_regs]

theorem rmw_faults (map : Regmap) (reg p value : Nat) :
    (read_modify_write map reg p value).faults = map.faults.tail.tail := by
  unfold read_modify_write
  rw [regmap_write_faults, regmap_read_faults]

theorem rmw_written (map : Regmap) (reg p value : Nat) (hread : map.faults.headD 0 = 0) :
    written_value p (regmap_read map reg value).2.1 = bit_action p (map.regs reg % 256) := by
  rw [(regmap_read_ok map reg value hread).2]
  exact written_value_byte p _ (Nat.mod_lt _ (by decide))

theorem rmw_regs_target (map : Regmap) (reg p value : Nat)
    (hread : map.faults.headD 0 = 0) (hwrite : map.faults.tail.headD 0 = 0) :
    (read_modify_write map reg p value).regs reg = bit_action p (map.regs reg % 256) := by
  have hlt : map.regs reg % 256 < 256 := Nat.mod_lt _ (by decide)
  have hw : (regmap_read map reg value).2.2.faults.headD 0 = 0 := by
    rw [regmap_read_faults]; exact hwrite
  unfold read_modify_write
  rw [(regmap_write_ok _ reg _ hw).2, rmw_written map reg p value hread]
  exact Nat.mod_eq_of_lt (bit_action_lt p _ hlt)

theorem link_setup_not_sink (state : vbx3_fpga_state) (local_ remote : MediaPad)
    (flags value : Nat) (hp : 4 ≤ local_.index) (hflags : flags ≠ 0) :
    vbx3_fpga_link_setup state local_ remote flags value =
      if local_.index = VBX3_FPGA_OUTPUT_CHANNEL0 ∨ local_.index = VBX3_FPGA_OUTPUT_CHANNEL1
      then (0, state) else (-EINVAL, state) := by
  have h0 : local_.index ≠ 0 := by omega
  have h1 : local_.index ≠ 1 := by omega
  have h2 : local_.index ≠ 2 := by omega
  have h3 : local_.index ≠ 3 := by omega
  simp [vbx3_fpga_link_setup, hflags, h0, h1, h2, h3,
    VBX3_FPGA_INPUT_SDI0, VBX3_FPGA_INPUT_ADV7611_HDMI, VBX3_FPGA_INPUT_SDI1,
    VBX3_FPGA_INPUT_ADV7604_HDMI]

/-! ## Link setup: rejection, read-modify-write, bus errors -/

/-- When the link the lookup returns for the alternate sink has flags equal to
`MEDIA_LNK_FL_ENABLED`, an enable request on a sink pad returns `-EINVAL`
before any bus transaction. -/
theorem link_setup_rejects_before_bus (state : vbx3_fpga_state) (local_ remote : MediaPad)
    (flags value : Nat) (l : MediaLink)
    (hp : local_.index < 4) (hflags : flags ≠ 0)
    (hfind : find_link_by_sinkpad_index state.entity (alternate local_.index) = some l)
    (hen : l.flags = MEDIA_LNK_FL_ENABLED) :
    vbx3_fpga_link_setup state local_ remote flags value = (-EINVAL, state) := by
  have hchk : link_is_activated
      (find_link_by_sinkpad_index state.entity (alternate local_.index)) = true := by
    rw [hfind]
    simp [link_is_activated, hen]
  exact link_setup_sink_conflict state local_ remote flags value hp hflags hchk

/-- C1, at the failing input: the only link into pad 1, the alternate of pad 0,
is dynamic; the enable request on pad 1 with flags ENABLED | DYNAMIC (5)
succeeds, and leaves that link enabled with flags 5. The enable request on pad 0
that follows is not rejected: the test `link->flags == MEDIA_LNK_FL_ENABLED`
compares the whole flags word, so the request returns 0 and puts the read and
the write of the channel 0 control register on the bus, which goes from 0x00 to
0x01. -/
theorem link_setup_enabled_alternate_not_rejected :
    (vbx3_fpga_link_setup ⟨entity_dynamic_idle, bus_zero⟩ (pad 1) (pad 0) 5 0).1 = 0 ∧
    entity_alt_dynamic.links.filter (fun l => decide (link_at entity_alt_dynamic 1 l)) =
      [link_to 11 1 5] ∧
    enabled_link_on entity_alt_dynamic (alternate 0) ∧
    (vbx3_fpga_link_setup ⟨entity_alt_dynamic, bus_zero⟩ (pad 0) (pad 0) 1 0).1 = 0 ∧
    (vbx3_fpga_link_setup ⟨entity_alt_dynamic, bus_zero⟩ (pad 0) (pad 0) 1 0).1 ≠ -EINVAL ∧
    (vbx3_fpga_link_setup ⟨entity_alt_dynamic, bus_zero⟩ (pad 0) (pad 0) 1 0).2.regmap.log =
      [BusOp.read VBX3_FPGA_REG_CTRL_CHAN0, BusOp.write VBX3_FPGA_REG_CTRL_CHAN0 0x01] ∧
    bus_zero.regs VBX3_FPGA_REG_CTRL_CHAN0 = 0x00 ∧
    (vbx3_fpga_link_setup ⟨entity_alt_dynamic, bus_zero⟩ (pad 0) (pad 0) 1 0).2.regmap.regs
      VBX3_FPGA_REG_CTRL_CHAN0 = 0x01 := by
  decide

/-- C4: for a sink pad p in 0..3 with no enabled link on the alternate sink and
a bus read that goes through, an enable request returns 0 and puts on the bus
exactly one read and then one write, both addressed to the control register of
p (0x01 for the pads 0 and 1, 0x02 for the pads 2 and 3); the value written is
the byte just read with bit 0 set (pads 0, 2) or cleared (pads 1, 3) and the
bits 7..1 unchanged; every other register keeps its content, and the control
register holds the written value when the write goes through. -/
theorem link_setup_read_modify_write (state : vbx3_fpga_state) (local_ remote : MediaPad)
    (flags value : Nat)
    (hp : local_.index < 4) (hflags : flags ≠ 0)
    (hfree : ¬ enabled_link_on state.entity (alternate local_.index))
    (hread : state.regmap.faults.headD 0 = 0) :
    (vbx3_fpga_link_setup state local_ remote flags value).1 = 0 ∧
    (vbx3_fpga_link_setup state local_ remote flags value).2.regmap.log =
      state.regmap.log ++
        [BusOp.read (ctrl_reg local_.index),
         BusOp.write (ctrl_reg local_.index)
           (bit_action local_.index (state.regmap.regs (ctrl_reg local_.index) % 256))] ∧
    bit_action local_.index (state.regmap.regs (ctrl_reg local_.index) % 256) % 2 =
      bit0_after local_.index ∧
    bit_action local_.index (state.regmap.regs (ctrl_reg local_.index) % 256) / 2 =
      state.regmap.regs (ctrl_reg local_.index) % 256 / 2 ∧
    (∀ r, r ≠ ctrl_reg local_.index →
      (vbx3_fpga_link_setup state local_ remote flags value).2.regmap.regs r =
        state.regmap.regs r) ∧
    (state.regmap.faults.tail.headD 0 = 0 →
      (vbx3_fpga_link_setup state local_ remote flags value).2.regmap.regs
          (ctrl_reg local_.index) =
        bit_action local_.index (state.regmap.regs (ctrl_reg local_.index) % 256)) := by
  rw [link_setup_sink_rmw state local_ remote flags value hp hflags hfree]
  refine ⟨rfl, ?_, ?_, ?_, ?_, ?_⟩
  · show (read_modify_write state.regmap (ctrl_reg local_.index) local_.index value).log = _
    rw [rmw_log, rmw_written _ _ _ _ hread]
  · unfold bit_action bit0_after
    split <;> omega
  · unfold bit_action bit0_after
    split <;> omega
  · intro r hr
    exact rmw_regs_other state.regmap (ctrl_reg local_.index) local_.index value r hr
  · intro hwrite
    exact rmw_regs_target state.regmap (ctrl_reg local_.index) local_.index value hread hwrite

/-- Witness of C4: pad 3 is enabled on the idle switch. -/
theorem link_setup_read_modify_write_witness :
    (pad 3).index < 4 ∧ (1 : Nat) ≠ 0 ∧
    ¬ enabled_link_on entity_idle (alternate (pad 3).index) ∧
    bus_sdi0_e0.faults.headD 0 = 0 ∧
    (vbx3_fpga_link_setup ⟨entity_idle, bus_sdi0_e0⟩ (pad 3) (pad 0) 1 7).2.regmap.log =
      bus_sdi0_e0.log ++
        [BusOp.read (ctrl_reg (pad 3).index),
         BusOp.write (ctrl_reg (pad 3).index)
           (bit_action (pad 3).index (bus_sdi0_e0.regs (ctrl_reg (pad 3).index) % 256))] :=
  ⟨by decide, by decide, by decide, by decide,
    (link_setup_read_modify_write ⟨entity_idle, bus_sdi0_e0⟩ (pad 3) (pad 0) 1 7
      (by decide) (by decide) (by decide) (by decide)).2.1⟩

/-- Counterexample to C5: an enabled link into the alternate pad 1 that is not
the first link into that pad, or whose flags are ENABLED together with
IMMUTABLE, does not block: the enable request on pad 0 returns 0. -/
theorem conflict_lookup_misses_enabled_link :
    (enabled_link_on entity_alt_second (alternate 0) ∧
      (vbx3_fpga_link_setup ⟨entity_alt_second, bus_zero⟩ (pad 0) (pad 0) 1 0).1 = 0) ∧
    (enabled_link_on entity_alt_immutable (alternate 0) ∧
      (vbx3_fpga_link_setup ⟨entity_alt_immutable, bus_zero⟩ (pad 0) (pad 0) 1 0).1 = 0) := by
  decide

/-- C5 as amended: for a sink pad p in 0..3, when the first link of the list
whose sink is on this entity at pad alternate(p) has flags equal to
`MEDIA_LNK_FL_ENABLED`, the enable request on p is rejected with `-EINVAL`,
whatever links come before it (to other pads) and after it. -/
theorem conflict_lookup_first_link (state : vbx3_fpga_state) (local_ remote : MediaPad)
    (flags value : Nat) (pre post : List MediaLink) (l : MediaLink)
    (hp : local_.index < 4) (hflags : flags ≠ 0)
    (hlinks : state.entity.links = pre ++ l :: post)
    (hpre : ∀ x ∈ pre, ¬ link_at state.entity (alternate local_.index) x)
    (hl : link_at state.entity (alternate local_.index) l)
    (hen : l.flags = MEDIA_LNK_FL_ENABLED) :
    (vbx3_fpga_link_setup state local_ remote flags value).1 = -EINVAL := by
  have hfind : find_link_by_sinkpad_index state.entity (alternate local_.index) = some l := by
    unfold find_link_by_sinkpad_index
    rw [hlinks]
    exact find_link_loop_first state.entity.id (alternate local_.index) pre post l hpre hl
  have hchk : link_is_activated
      (find_link_by_sinkpad_index state.entity (alternate local_.index)) = true := by
    rw [hfind]
    simp [link_is_activated, hen]
  rw [link_setup_sink_conflict state local_ remote flags value hp hflags hchk]

/-- Witness of C5 as amended: the enabled link into pad 2 comes third in the
list and pad 3 is requested. -/
theorem conflict_lookup_first_link_witness :
    (pad 3).index < 4 ∧ (5 : Nat) ≠ 0 ∧
    (vbx3_fpga_link_setup
      ⟨{ id := 1, links := [link_to 10 0 0, link_to 11 1 3] ++ link_to 12 2 1 :: [link_to 15 2 0] },
        bus_zero⟩ (pad 3) (pad 0) 5 0).1 = -EINVAL :=
  ⟨by decide, by decide,
    conflict_lookup_first_link
      ⟨{ id := 1, links := [link_to 10 0 0, link_to 11 1 3] ++ link_to 12 2 1 :: [link_to 15 2 0] },
        bus_zero⟩ (pad 3) (pad 0) 5 0 [link_to 10 0 0, link_to 11 1 3] [link_to 15 2 0]
      (link_to 12 2 1) (by decide) (by decide) rfl (by decide) (by decide) (by decide)⟩

/-! ## Link flags are never written -/

/-- Counterexample to C6: on the idle switch a disable request on pad 1
followed by an enable request on pad 0 both return 0, and afterwards the link
into pad 0 still has flags 0: the link list does not report it enabled. -/
theorem link_setup_does_not_commit :
    (vbx3_fpga_link_setup ⟨entity_idle, bus_zero⟩ (pad (alternate 0)) (pad 0) 0 0).1 = 0 ∧
    (vbx3_fpga_link_setup
      (vbx3_fpga_link_setup ⟨entity_idle, bus_zero⟩ (pad (alternate 0)) (pad 0) 0 0).2
      (pad 0) (pad 0) 1 0).1 = 0 ∧
    link_flags (vbx3_fpga_link_setup
      (vbx3_fpga_link_setup ⟨entity_idle, bus_zero⟩ (pad (alternate 0)) (pad 0) 0 0).2
      (pad 0) (pad 0) 1 0).2.entity 0 = some 0 ∧
    ¬ enabled_link_on (vbx3_fpga_link_setup
      (vbx3_fpga_link_setup ⟨entity_idle, bus_zero⟩ (pad (alternate 0)) (pad 0) 0 0).2
      (pad 0) (pad 0) 1 0).2.entity 0 := by
  decide

/-- The callback returns the entity it was given, on every path. -/
theorem link_setup_entity (state : vbx3_fpga_state) (local_ remote : MediaPad)
    (flags value : Nat) :
    (vbx3_fpga_link_setup state local_ remote flags value).2.entity = state.entity := by
  by_cases hflags : flags = 0
  · simp [vbx3_fpga_link_setup, hflags]
  · by_cases hp : local_.index < 4
    · cases hchk : link_is_activated
          (find_link_by_sinkpad_index state.entity (alternate local_.index))
      · rw [link_setup_sink_free state local_ remote flags value hp hflags hchk]
      · rw [link_setup_sink_conflict state local_ remote flags value hp hflags hchk]
    · rw [link_setup_not_sink state local_ remote flags value (Nat.le_of_not_lt hp) hflags]
      split <;> rfl

/-- C6 as amended: a disable request on alternate(p) followed by an enable
request on p, whether it succeeds or not, leaves the link list of the entity,
and with it the flags of the links on p and on alternate(p), exactly as they
were before the two requests: `vbx3_fpga_link_setup` never writes link flags. -/
theorem link_setup_keeps_link_flags (state : vbx3_fpga_state) (local_ alt remote : MediaPad)
    (flags value1 value2 : Nat) :
    (vbx3_fpga_link_setup (vbx3_fpga_link_setup state alt remote 0 value1).2
      local_ remote flags value2).2.entity = state.entity ∧
    link_flags (vbx3_fpga_link_setup (vbx3_fpga_link_setup state alt remote 0 value1).2
      local_ remote flags value2).2.entity local_.index =
        link_flags state.entity local_.index ∧
    link_flags (vbx3_fpga_link_setup (vbx3_fpga_link_setup state alt remote 0 value1).2
      local_ remote flags value2).2.entity (alternate local_.index) =
        link_flags state.entity (alternate local_.index) := by
  have h : (vbx3_fpga_link_setup (vbx3_fpga_link_setup state alt remote 0 value1).2
      local_ remote flags value2).2.entity = state.entity := by
    rw [link_setup_entity, link_setup_entity]
  rw [h]
  exact ⟨rfl, rfl, rfl⟩

/-! ## Enabling twice -/

/-- C7: for a sink pad p in 0..3 with no enabled link on the alternate sink, any
register contents and a working bus, two consecutive enable requests on p both
return 0 and each puts a read and then a write on the bus; the two writes go to
the same control register with the same value, and the registers after the
second request are those after the first. -/
theorem link_setup_enable_twice (state : vbx3_fpga_state) (local_ remote : MediaPad)
    (flags1 flags2 value1 value2 : Nat) (r1 r2 : Int × vbx3_fpga_state)
    (hp : local_.index < 4) (hf1 : flags1 ≠ 0) (hf2 : flags2 ≠ 0)
    (hfree : ¬ enabled_link_on state.entity (alternate local_.index))
    (hbus : state.regmap.reliable)
    (h1 : r1 = vbx3_fpga_link_setup state local_ remote flags1 value1)
    (h2 : r2 = vbx3_fpga_link_setup r1.2 local_ remote flags2 value2) :
    r1.1 = 0 ∧ r2.1 = 0 ∧
    r1.2.regmap.log = state.regmap.log ++
      [BusOp.read (ctrl_reg local_.index),
       BusOp.write (ctrl_reg local_.index)
         (bit_action local_.index (state.regmap.regs (ctrl_reg local_.index) % 256))] ∧
    r2.2.regmap.log = r1.2.regmap.log ++
      [BusOp.read (ctrl_reg local_.index),
       BusOp.write (ctrl_reg local_.index)
         (bit_action local_.index (state.regmap.regs (ctrl_reg local_.index) % 256))] ∧
    r1.2.regmap.regs (ctrl_reg local_.index) =
      bit_action local_.index (state.regmap.regs (ctrl_reg local_.index) % 256) ∧
    r2.2.regmap.regs = r1.2.regmap.regs := by
  have hlt : state.regmap.regs (ctrl_reg local_.index) % 256 < 256 := Nat.mod_lt _ (by decide)
  have hb := bit_action_lt local_.index _ hlt
  have e1 := link_setup_sink_rmw state local_ remote flags1 value1 hp hf1 hfree
  rw [← h1] at e1
  have hent : r1.2.entity = state.entity := by rw [e1]
  have hmap : r1.2.regmap =
      read_modify_write state.regmap (ctrl_reg local_.index) local_.index value1 := by rw [e1]
  have hfree1 : ¬ enabled_link_on r1.2.entity (alternate local_.index) := by rw [hent]; exact hfree
  have e2 := link_setup_sink_rmw r1.2 local_ remote flags2 value2 hp hf2 hfree1
  rw [← h2] at e2
  have hmap2 : r2.2.regmap =
      read_modify_write r1.2.regmap (ctrl_reg local_.index) local_.index value2 := by rw [e2]
  have hrd := reliable_head state.regmap hbus
  have hwr := reliable_tail_head state.regmap hbus
  have hbus1 : r1.2.regmap.reliable := by
    intro e he
    rw [hmap, rmw_faults] at he
    exact hbus e (List.mem_of_mem_tail (List.mem_of_mem_tail he))
  have hrd1 := reliable_head r1.2.regmap hbus1
  have hwr1 := reliable_tail_head r1.2.regmap hbus1
  have hreg1 : r1.2.regmap.regs (ctrl_reg local_.index) =
      bit_action local_.index (state.regmap.regs (ctrl_reg local_.index) % 256) := by
    rw [hmap]
    exact rmw_regs_target state.regmap _ _ value1 hrd hwr
  have hsame : bit_action local_.index (r1.2.regmap.regs (ctrl_reg local_.index) % 256) =
      bit_action local_.index (state.regmap.regs (ctrl_reg local_.index) % 256) := by
    rw [hreg1, Nat.mod_eq_of_lt hb, bit_action_idem]
  refine ⟨by rw [e1], by rw [e2], ?_, ?_, hreg1, ?_⟩
  · rw [hmap, rmw_log, rmw_written _ _ _ _ hrd]
  · rw [hmap2, rmw_log, rmw_written _ _ _ _ hrd1, hsame]
  · funext r
    by_cases hr : r = ctrl_reg local_.index
    · rw [hr, hmap2, rmw_regs_target r1.2.regmap _ _ value2 hrd1 hwr1, hsame, ← hreg1]
    · rw [hmap2, rmw_regs_other _ _ _ _ _ hr]

/-- Witness of C7: pad 0 is enabled twice on the idle switch. -/
theorem link_setup_enable_twice_witness :
    (pad 0).index < 4 ∧ (1 : Nat) ≠ 0 ∧
    ¬ enabled_link_on entity_idle (alternate (pad 0).index) ∧ bus_zero.reliable ∧
    (vbx3_fpga_link_setup ⟨entity_idle, bus_zero⟩ (pad 0) (pad 0) 1 0).1 = 0 ∧
    (vbx3_fpga_link_setup (vbx3_fpga_link_setup ⟨entity_idle, bus_zero⟩ (pad 0) (pad 0) 1 0).2
      (pad 0) (pad 0) 1 0).1 = 0 :=
  ⟨by decide, by decide, by decide, by decide,
    (link_setup_enable_twice ⟨entity_idle, bus_zero⟩ (pad 0) (pad 0) 1 1 0 0 _ _
      (by decide) (by decide) (by decide) (by decide) (by decide) rfl rfl).1,
    (link_setup_enable_twice ⟨entity_idle, bus_zero⟩ (pad 0) (pad 0) 1 1 0 0 _ _
      (by decide) (by decide) (by decide) (by decide) (by decide) rfl rfl).2.1⟩

/-! ## Disable requests and invalid pads -/

/-- C8: a disable request (flags 0) returns 0 for every local pad, valid index
or not, every link list and every bus, and issues no bus read and no bus write:
the bus log and the registers are unchanged. -/
theorem link_setup_disable_is_noop (state : vbx3_fpga_state) (local_ remote : MediaPad)
    (value : Nat) :
    (vbx3_fpga_link_setup state local_ remote 0 value).1 = 0 ∧
    (vbx3_fpga_link_setup state local_ remote 0 value).2.regmap.log = state.regmap.log ∧
    (vbx3_fpga_link_setup state local_ remote 0 value).2.regmap.regs = state.regmap.regs ∧
    (vbx3_fpga_link_setup state local_ remote 0 value).2.regmap.faults =
      state.regmap.faults := by
  have h : vbx3_fpga_link_setup state local_ remote 0 value = (0, state) := by
    simp [vbx3_fpga_link_setup]
  rw [h]
  exact ⟨rfl, rfl, rfl, rfl⟩

/-- C9: for every pad index n of 6 or more, every link list and every bus, an
enable request returns `-EINVAL` and issues no bus transaction. -/
theorem link_setup_invalid_pad (state : vbx3_fpga_state) (local_ remote : MediaPad)
    (flags value : Nat) (hn : 6 ≤ local_.index) (hflags : flags ≠ 0) :
    (vbx3_fpga_link_setup state local_ remote flags value).1 = -EINVAL ∧
    (vbx3_fpga_link_setup state local_ remote flags value).2.regmap.log = state.regmap.log ∧
    (vbx3_fpga_link_setup state local_ remote flags value).2.regmap.regs =
      state.regmap.regs := by
  have h4 : local_.index ≠ VBX3_FPGA_OUTPUT_CHANNEL0 := by
    unfold VBX3_FPGA_OUTPUT_CHANNEL0; omega
  have h5 : local_.index ≠ VBX3_FPGA_OUTPUT_CHANNEL1 := by
    unfold VBX3_FPGA_OUTPUT_CHANNEL1; omega
  rw [link_setup_not_sink state local_ remote flags value (by omega) hflags,
    if_neg (by simp [h4, h5])]
  exact ⟨rfl, rfl, rfl⟩

/-- Witness of C9: pad index 6 on the idle switch. -/
theorem link_setup_invalid_pad_witness :
    6 ≤ (pad 6).index ∧ (1 : Nat) ≠ 0 ∧
    (vbx3_fpga_link_setup ⟨entity_idle, bus_zero⟩ (pad 6) (pad 0) 1 0).1 = -EINVAL ∧
    (vbx3_fpga_link_setup ⟨entity_idle, bus_zero⟩ (pad 6) (pad 0) 1 0).2.regmap.log =
      bus_zero.log ∧
    (vbx3_fpga_link_setup ⟨entity_idle, bus_zero⟩ (pad 6) (pad 0) 1 0).2.regmap.regs =
      bus_zero.regs :=
  ⟨by decide, by decide,
    link_setup_invalid_pad ⟨entity_idle, bus_zero⟩ (pad 6) (pad 0) 1 0 (by decide) (by decide)⟩

/-! ## Status decode -/

theorem and_shift_bound (v m k b : Nat) (h : m / 2 ^ k < b) : (v &&& m) >>> k < b := by
  rw [Nat.shiftRight_eq_div_pow]
  exact lt_of_le_of_lt (Nat.div_le_div_right Nat.and_le_right) h

/-- The resolution and frame-rate indices are within their tables for every
value; the format index is below 4. -/
theorem sdi_index_bounds (value : Nat) :
    sdi_video_index value < sdi_video.length ∧ sdi_fps_index value < sdi_fps.length ∧
    sdi_format_index value < 4 := by
  refine ⟨and_shift_bound value 0x18 3 4 (by decide), ?_, and_shift_bound value 0x60 5 4 (by decide)⟩
  exact lt_of_le_of_lt (Nat.and_le_right : value &&& 0x07 ≤ 0x07) (by decide)

/-- C2, at the failing input: the status byte 0xE0 (locked, format bits 11)
yields the format index 3, outside the 3 entries of `sdi_format`; the decode of
the format line has no defined result, and neither has `vbx3_fpga_log_status`
on a bus whose SDI0 status register holds 0xE0. -/
theorem sdi_format_index_out_of_range :
    (0xE0 : Nat) < 256 ∧ sdi_format_index 0xE0 = 3 ∧ sdi_format.length = 3 ∧
    ¬ sdi_format_index 0xE0 < sdi_format.length ∧
    decode_lock_format 0xE0 = none ∧
    (vbx3_fpga_log_status bus_sdi0_e0 0).isNone = true := by
  decide

/-! ## Probe -/

theorem to_int_byte (v : Nat) : ¬ to_int (v % 256) < 0 := by
  unfold to_int
  have h : v % 256 % 2 ^ 32 < 2 ^ 31 := by omega
  rw [if_pos h]
  omega

theorem reliable_step (m1 m2 : Regmap) (h : m1.reliable) (hf : m2.faults = m1.faults.tail) :
    m2.reliable := by
  intro e he
  rw [hf] at he
  exact h e (List.mem_of_mem_tail he)

theorem probe_past_checks (env : ProbeEnv) (map : Regmap)
    (hfun : env.i2c_functionality = true) (hmem : env.kzalloc_ok = true)
    (hmap : env.regmap_is_err = false)
    (hver : ¬ to_int (regmap_read map VBX3_FPGA_REG_VERSION env.version).2.1 < 0) :
    vbx3_fpga_probe env map =
      (env.async_register_ret,
        (regmap_read
          (regmap_write
            (regmap_write (regmap_read map VBX3_FPGA_REG_VERSION env.version).2.2
              VBX3_FPGA_REG_CTRL_CHAN0 0x00).2
            VBX3_FPGA_REG_CTRL_CHAN1 0x00).2
          VBX3_FPGA_REG_GLOBAL_STATUS env.status).2.2) := by
  simp [vbx3_fpga_probe, hfun, hmem, hmap, hver]

/-- C10: when `vbx3_fpga_probe` gets past its checks on a working bus, it reads
the version and writes 0x00 to the channel control registers 0x01 and 0x02, so
that both hold 0x00 afterwards and a following read of the channel 0 control
register succeeds with 0x00; the channel-source decode of 0x00 is audio HDMI,
video HDMI. -/
theorem probe_default_state (env : ProbeEnv) (map : Regmap)
    (hfun : env.i2c_functionality = true) (hmem : env.kzalloc_ok = true)
    (hmap : env.regmap_is_err = false) (hbus : map.reliable) :
    (vbx3_fpga_probe env map).1 = env.async_register_ret ∧
    (vbx3_fpga_probe env map).2.log = map.log ++
      [BusOp.read VBX3_FPGA_REG_VERSION, BusOp.write VBX3_FPGA_REG_CTRL_CHAN0 0x00,
       BusOp.write VBX3_FPGA_REG_CTRL_CHAN1 0x00, BusOp.read VBX3_FPGA_REG_GLOBAL_STATUS] ∧
    (vbx3_fpga_probe env map).2.regs VBX3_FPGA_REG_CTRL_CHAN0 = 0x00 ∧
    (vbx3_fpga_probe env map).2.regs VBX3_FPGA_REG_CTRL_CHAN1 = 0x00 ∧
    (∀ value, (regmap_read (vbx3_fpga_probe env map).2 VBX3_FPGA_REG_CTRL_CHAN0 value).1 = 0 ∧
      (regmap_read (vbx3_fpga_probe env map).2 VBX3_FPGA_REG_CTRL_CHAN0 value).2.1 = 0x00) ∧
    decode_channel_sources 0x00 = some ("HDMI", "HDMI") := by
  have hrd := regmap_read_ok map VBX3_FPGA_REG_VERSION env.version (reliable_head map hbus)
  have hver : ¬ to_int (regmap_read map VBX3_FPGA_REG_VERSION env.version).2.1 < 0 := by
    rw [hrd.2]
    exact to_int_byte _
  rw [probe_past_checks env map hfun hmem hmap hver]
  set m1 := (regmap_read map VBX3_FPGA_REG_VERSION env.version).2.2 with hm1
  set m2 := (regmap_write m1 VBX3_FPGA_REG_CTRL_CHAN0 0x00).2 with hm2
  set m3 := (regmap_write m2 VBX3_FPGA_REG_CTRL_CHAN1 0x00).2 with hm3
  set m4 := (regmap_read m3 VBX3_FPGA_REG_GLOBAL_STATUS env.status).2.2 with hm4
  have r1 : m1.reliable := reliable_step map m1 hbus (regmap_read_faults _ _ _)
  have r2 : m2.reliable := reliable_step m1 m2 r1 (regmap_write_faults _ _ _)
  have r3 : m3.reliable := reliable_step m2 m3 r2 (regmap_write_faults _ _ _)
  have r4 : m4.reliable := reliable_step m3 m4 r3 (regmap_read_faults _ _ _)
  have hlog : m4.log = map.log ++
      [BusOp.read VBX3_FPGA_REG_VERSION, BusOp.write VBX3_FPGA_REG_CTRL_CHAN0 0x00,
       BusOp.write VBX3_FPGA_REG_CTRL_CHAN1 0x00, BusOp.read VBX3_FPGA_REG_GLOBAL_STATUS] := by
    rw [hm4, regmap_read_log, hm3, regmap_write_log, hm2, regmap_write_log, hm1,
      regmap_read_log]
    simp
  have hc0 : m4.regs VBX3_FPGA_REG_CTRL_CHAN0 = 0x00 := by
    rw [hm4, regmap_read_regs, hm3,
      regmap_write_regs_other m2 VBX3_FPGA_REG_CTRL_CHAN1 0x00 VBX3_FPGA_REG_CTRL_CHAN0
        (by decide), hm2]
    exact (regmap_write_ok m1 VBX3_FPGA_REG_CTRL_CHAN0 0x00 (reliable_head m1 r1)).2
  have hc1 : m4.regs VBX3_FPGA_REG_CTRL_CHAN1 = 0x00 := by
    rw [hm4, regmap_read_regs, hm3]
    exact (regmap_write_ok m2 VBX3_FPGA_REG_CTRL_CHAN1 0x00 (reliable_head m2 r2)).2
  refine ⟨rfl, hlog, hc0, hc1, ?_, by decide⟩
  intro value
  have h := regmap_read_ok m4 VBX3_FPGA_REG_CTRL_CHAN0 value (reliable_head m4 r4)
  refine ⟨h.1, ?_⟩
  rw [h.2, hc0]

/-- Witness of C10: every kernel service succeeds and the bus works. -/
theorem probe_default_state_witness :
    env_ok.i2c_functionality = true ∧ env_ok.kzalloc_ok = true ∧
    env_ok.regmap_is_err = false ∧ bus_sdi0_e0.reliable ∧
    (vbx3_fpga_probe env_ok bus_sdi0_e0).2.regs VBX3_FPGA_REG_CTRL_CHAN0 = 0x00 ∧
    (vbx3_fpga_probe env_ok bus_sdi0_e0).2.regs VBX3_FPGA_REG_CTRL_CHAN1 = 0x00 :=
  ⟨rfl, rfl, rfl, by decide,
    (probe_default_state env_ok bus_sdi0_e0 rfl rfl rfl (by decide)).2.2.1,
    (probe_default_state env_ok bus_sdi0_e0 rfl rfl rfl (by decide)).2.2.2.1⟩

end Vbx3Fpga
